import Mathlib

/-!
Verification development for the dependency-extractor repository.

The JavaScript sources are shallowly embedded as executable Lean
definitions.  Fallible runtime operations (file reads, JSON/XML parses,
external commands) are modelled as explicit outcome fields of an
environment record, and the try/catch structure of each function is
translated into matches on those outcomes.  JS string truthiness
(the empty string is falsy) is modelled by the jsOr helpers.
-/

/-- The normalized dependency record pushed by every extractor
(projectType, projectPath, dependencyName, dependencyVersion, isDev). -/
structure Dep where
  projectType : String
  projectPath : String
  dependencyName : String
  dependencyVersion : String
  isDev : Bool
deriving DecidableEq

/-- JS expression `v || d` for an optional string value: an absent value
(undefined/null) and the empty string are both falsy. -/
def jsOr (v : Option String) (d : String) : String :=
  match v with
  | none => d
  | some s => if s = "" then d else s

/-- JS expression `s || d` for a string that is always present. -/
def jsOrStr (s d : String) : String :=
  if s = "" then d else s

/-- Split a character list on a separator character (the list of fields,
possibly empty, like the JS string split). -/
def splitOnChar (sep : Char) : List Char → List (List Char)
  | [] => [[]]
  | c :: rest =>
    match splitOnChar sep rest with
    | [] => if c = sep then [[], []] else [[c]]
    | g :: gs => if c = sep then [] :: g :: gs else (c :: g) :: gs

/-- Interleave slash separators between path segments. -/
def joinSegs : List (List Char) → List Char
  | [] => []
  | [g] => g
  | g :: gs => g ++ '/' :: joinSegs gs

/-- Strip leading and trailing whitespace (the JS trim). -/
def trimChars (cs : List Char) : List Char :=
  ((cs.dropWhile Char.isWhitespace).reverse.dropWhile Char.isWhitespace).reverse

/-- Node path.dirname for the slash-separated relative paths used by this
program: everything before the final separator, or "." when there is none. -/
def dirname (p : String) : String :=
  match (splitOnChar '/' p.data).dropLast with
  | [] => "."
  | ps => ⟨joinSegs ps⟩

/-- Node path.join for two relative segments: concatenates, dropping empty
and "." segments (the inputs used by this program contain no ".."). -/
def joinTwo (a b : String) : String :=
  let segs :=
    (splitOnChar '/' a.data ++ splitOnChar '/' b.data).filter
      (fun s => !(s.isEmpty || s == ['.']))
  if segs.isEmpty then "." else ⟨joinSegs segs⟩

/-- Outcome of a fallible JS operation whose error object is not inspected. -/
abbrev JsTry (α : Type) : Type := Except Unit α

/-- Decidable equality for Except results, used to evaluate theorems about
concrete extraction runs. -/
def exceptEqDec {ε α : Type} [DecidableEq ε] [DecidableEq α] :
    DecidableEq (Except ε α)
  | .ok a, .ok b =>
    if h : a = b then .isTrue (h ▸ rfl)
    else .isFalse (fun hc => h (Except.ok.inj hc))
  | .error a, .error b =>
    if h : a = b then .isTrue (h ▸ rfl)
    else .isFalse (fun hc => h (Except.error.inj hc))
  | .ok _, .error _ => .isFalse (fun hc => Except.noConfusion hc)
  | .error _, .ok _ => .isFalse (fun hc => Except.noConfusion hc)

instance {ε α : Type} [DecidableEq ε] [DecidableEq α] :
    DecidableEq (Except ε α) := exceptEqDec

namespace CsvHelper

/-- A record handed to the CSV sink; JS objects may lack any field, so every
field is optional here (src/src/utils/csvHelper.js lines 68-75 guard each
with `|| empty-string`). -/
structure CsvRecord where
  projectType : Option String
  projectPath : Option String
  dependencyName : Option String
  dependencyVersion : Option String
  isDev : Option Bool
deriving DecidableEq

/-- The CSV header row of csvHelper.js line 24. -/
def headers : List String :=
  ["ProjectType", "ProjectPath", "DependencyName", "DependencyVersion"]

/-- The row built for one record by appendDependenciesToCsv (lines 68-75):
four string cells, each `dep.field || empty-string`; isDev is never read. -/
def rowOf (dep : CsvRecord) : List String :=
  [jsOr dep.projectType "",
   jsOr dep.projectPath "",
   jsOr dep.dependencyName "",
   jsOr dep.dependencyVersion ""]

/-- appendDependenciesToCsv (csvHelper.js lines 56-91): throws when the sink
was not initialized, otherwise appends one row per record (an empty batch
appends nothing, which equals mapping rowOf over the empty list). -/
def appendDependenciesToCsv (initialized : Bool) (deps : List CsvRecord) :
    Except Unit (List (List String)) :=
  if initialized = false then .error ()
  else .ok (deps.map rowOf)

/-- The constructor of csvHelper.js (lines 17-19): the output path actually
used is dirname(outputPath) joined with the fixed name "dependencies.csv";
the basename supplied by the caller is discarded. -/
def outputPathOf (outputPath : String) : String :=
  joinTwo (dirname outputPath) "dependencies.csv"

/-- finalizeCsv (csvHelper.js lines 97-104): throws when not initialized,
otherwise returns the path the constructor computed. -/
def finalizeCsv (outputPath : String) (initialized : Bool) :
    Except Unit String :=
  if initialized = false then .error ()
  else .ok (outputPathOf outputPath)

end CsvHelper

namespace DirWalker

mutual
/-- A file tree as seen through the filesystem API: regular files,
directories, symbolic links carrying their resolved target, and dangling
symbolic links whose target does not exist. -/
inductive FsNode where
  | file : FsNode
  | brokenLink : FsNode
  | symlink (target : FsNode) : FsNode
  | dir (entries : FsEntries) : FsNode
/-- Entry list of a directory. -/
inductive FsEntries where
  | nil : FsEntries
  | cons (name : String) (node : FsNode) (rest : FsEntries) : FsEntries
end

/-- The subset of Node fs.Stats that dirWalker.js consults. -/
structure Stats where
  isDirectory : Bool
  isSymbolicLink : Bool
deriving DecidableEq

/-- Node fs.stat (fs/promises), as called at dirWalker.js line 63: stat
FOLLOWS symbolic links, so it reports the metadata of the resolved target
and fails for a dangling link.  Consequently the Stats it returns never
report isSymbolicLink. -/
def statFollow : FsNode → Option Stats
  | .file => some ⟨false, false⟩
  | .brokenLink => none
  | .symlink t => statFollow t
  | .dir _ => some ⟨true, false⟩

/-- Aggregate outcome of a walk: the counter of files for which the file
callback ran, the relative paths handed to it in order, and the number of
per-entry errors handed to the error callback. -/
structure WalkResult where
  counter : Nat
  filesVisited : List String
  errors : Nat
deriving DecidableEq

/-- Sequencing of two walk outcomes. -/
def combine (a b : WalkResult) : WalkResult :=
  ⟨a.counter + b.counter, a.filesVisited ++ b.filesVisited, a.errors + b.errors⟩

/-- Relative-path accumulation (path.relative of the base against the
resolved child path). -/
def relJoin (rel name : String) : String :=
  if rel = "" then name else rel ++ "/" ++ name

mutual
/-- The body of DirWalker._walk (dirWalker.js lines 58-99) for one directory
entry.  The code stats the entry with fs.stat, which follows links
(statFollow), so the isSymbolicLink skip at line 66 never fires: a link to a
file reaches the file branch (counter++, fileCallback) and a link to a
directory reaches the recursion branch; only a dangling link makes fs.stat
reject, which line 92 turns into an errCallback invocation. -/
def walkNode : FsNode → String → WalkResult
  | .file, rel => ⟨1, [rel], 0⟩
  | .brokenLink, _ => ⟨0, [], 1⟩
  | .symlink t, rel => walkNode t rel
  | .dir es, rel => walkEntries es rel
/-- Walk every entry of a directory in order (the for loop at line 58). -/
def walkEntries : FsEntries → String → WalkResult
  | .nil, _ => ⟨0, [], 0⟩
  | .cons name n rest, rel =>
    combine (walkNode n (relJoin rel name)) (walkEntries rest rel)
end

/-- DirWalker.walk (dirWalker.js lines 39-46): reset the counter and walk the
root directory; the return value is the counter. -/
def walk (root : FsNode) : WalkResult :=
  match root with
  | .dir es => walkEntries es ""
  | .symlink t => walk t
  | _ => ⟨0, [], 1⟩

end DirWalker

namespace NpmExtractor

/-- A value of the dependencies / devDependencies maps of package.json:
either a range string or an object (whose missing flag makes the entry
skipped and whose required field supplies the version). -/
inductive JsonDepVersion where
  | str (s : String)
  | obj (missing : Bool) (required : Option String)
deriving DecidableEq

/-- The parsed package.json fields npmExtractor.js reads. -/
structure PackageData where
  dependencies : Option (List (String × JsonDepVersion))
  devDependencies : Option (List (String × JsonDepVersion))
deriving DecidableEq

mutual
/-- One entry value of the nested dependency tree of a v2 package-lock.json.
An absent nested dependencies object is modelled as the empty entry list
(iterating an absent map and iterating an empty map push nothing either
way). -/
inductive LockDepV2 where
  | mk (version : Option String) (dev : Bool) (children : LockEntries) : LockDepV2
/-- Name-keyed entries of a v2 lockfile dependencies object, in key order. -/
inductive LockEntries where
  | nil : LockEntries
  | cons (name : String) (d : LockDepV2) (rest : LockEntries) : LockEntries
end

/-- One entry value of the flat packages map of a v3 package-lock.json. -/
structure PkgInfo where
  version : Option String
  dev : Bool
deriving DecidableEq

/-- The parsed package-lock.json fields npmExtractor.js dispatches on
(lines 80 and 87): the v2 nested tree or the v3 flat map. -/
structure LockData where
  dependencies : Option LockEntries
  packages : Option (List (String × PkgInfo))

mutual
/-- NpmExtractor._processPackageLockDependencies (npmExtractor.js lines
222-245): push an entry (version || "unknown", !!dev) and recurse into its
nested dependencies before continuing with the remaining siblings. -/
def processPackageLockDependencies (projectPathForCsv : String) :
    LockEntries → List Dep
  | .nil => []
  | .cons name d rest =>
    processLockEntry projectPathForCsv name d
      ++ processPackageLockDependencies projectPathForCsv rest
/-- One entry of the v2 tree: the record followed by its whole subtree. -/
def processLockEntry (projectPathForCsv name : String) : LockDepV2 → List Dep
  | .mk version dev children =>
    ⟨"NPM", projectPathForCsv, name, jsOr version "unknown", dev⟩
      :: processPackageLockDependencies projectPathForCsv children
end

/-- Strip a leading "node_modules/" and anything up to the last
"/node_modules/" from a v3 packages key (npmExtractor.js lines 262-270). -/
def v3PackageName (pkgPath : String) : String :=
  let nm := "node_modules/".data
  let sep := "/node_modules/".data
  let cs := pkgPath.data
  let pkgName := if nm.isPrefixOf cs then cs.drop nm.length else cs
  let starts :=
    (List.range (pkgName.length + 1)).filter
      (fun i => sep.isPrefixOf (pkgName.drop i))
  match starts.getLast? with
  | some i => ⟨pkgName.drop (i + sep.length)⟩
  | none => ⟨pkgName⟩

/-- NpmExtractor._processPackageLockV3Dependencies (npmExtractor.js lines
250-279): skip the root package (empty key) and push every other entry under
its stripped name. -/
def processPackageLockV3Dependencies (projectPathForCsv : String)
    (packages : List (String × PkgInfo)) : List Dep :=
  (packages.filter (fun e => !(e.1 == ""))).map
    (fun e => ⟨"NPM", projectPathForCsv, v3PackageName e.1,
               jsOr e.2.version "unknown", e.2.dev⟩)

/-- Dispatch on the lockfile schema (npmExtractor.js lines 80-94) and build
the dependency list recorded against the package-lock.json path. -/
def lockDeps (projectRelativePath : String) (lockData : LockData) : List Dep :=
  let p := joinTwo (dirname projectRelativePath) "package-lock.json"
  match lockData.dependencies with
  | some entries => processPackageLockDependencies p entries
  | none =>
    match lockData.packages with
    | some packages => processPackageLockV3Dependencies p packages
    | none => []

/-- One manifest map (npmExtractor.js lines 112-122 and 130-139): skip
entries whose object value is marked missing, record a string value
verbatim and an object value as required || "unknown". -/
def manifestEntryDeps (isDev : Bool) (projectPathForCsv : String) :
    List (String × JsonDepVersion) → List Dep
  | [] => []
  | (_, .obj true _) :: rest =>
    manifestEntryDeps isDev projectPathForCsv rest
  | (name, .obj false required) :: rest =>
    ⟨"NPM", projectPathForCsv, name, jsOr required "unknown", isDev⟩
      :: manifestEntryDeps isDev projectPathForCsv rest
  | (name, .str s) :: rest =>
    ⟨"NPM", projectPathForCsv, name, s, isDev⟩
      :: manifestEntryDeps isDev projectPathForCsv rest

/-- The manifest fallback (npmExtractor.js lines 107-140): dependencies with
isDev false, then devDependencies with isDev true, both recorded against the
package.json path. -/
def extractFromManifest (projectRelativePath : String) (pd : PackageData) :
    List Dep :=
  let p := joinTwo (dirname projectRelativePath) "package.json"
  (match pd.dependencies with
   | some m => manifestEntryDeps false p m
   | none => [])
  ++ (match pd.devDependencies with
      | some m => manifestEntryDeps true p m
      | none => [])

/-- The error value reaching the outer catch of extractDependencies: npm
spawn/exit failures carry the captured stdout and stderr (npmExtractor.js
lines 55-64), while readFile and JSON.parse rejections carry nothing. -/
inductive NpmErr where
  | cmdFail (stdout stderr : String)
  | plain
deriving DecidableEq

/-- Every fallible operation performed by NpmExtractor.extractDependencies,
with its outcome.  npmLs is none on exit code 0 and some (stdout, stderr) on
a nonzero exit or spawn error; pkgJson, lockJson, lsStdoutParse and
catchPkgJson are the outcomes of the readFile + JSON.parse steps at lines
70-71, 76-77, 152 and 160-161 respectively. -/
structure NpmEnv where
  packageJsonExists : Bool
  lockFileExists : Bool
  npmLs : Option (String × String)
  pkgJson : JsTry PackageData
  lockJson : JsTry LockData
  lsStdoutParse : JsTry Unit
  catchPkgJson : JsTry PackageData

/-- The try block of NpmExtractor.extractDependencies (npmExtractor.js
lines 30-143): missing manifest returns []; an npm ls failure throws; a
parsable lockfile returns the lock-derived list (even when empty, line 97);
a broken lockfile falls through to the manifest maps. -/
def npmMain (env : NpmEnv) (projectRelativePath : String) :
    Except NpmErr (List Dep) :=
  if env.packageJsonExists = false then .ok []
  else
    match env.npmLs with
    | some (so, se) => .error (.cmdFail so se)
    | none =>
      match env.pkgJson with
      | .error _ => .error .plain
      | .ok packageData =>
        if env.lockFileExists then
          match env.lockJson with
          | .ok lockData => .ok (lockDeps projectRelativePath lockData)
          | .error _ => .ok (extractFromManifest projectRelativePath packageData)
        else .ok (extractFromManifest projectRelativePath packageData)

/-- The catch block of NpmExtractor.extractDependencies (npmExtractor.js
lines 144-201): with a truthy error.stdout that parses as JSON the manifest
maps are re-read and used; every other failure yields []. -/
def npmCatch (env : NpmEnv) (projectRelativePath : String) : NpmErr → List Dep
  | .plain => []
  | .cmdFail stdout _ =>
    if stdout = "" then []
    else
      match env.lsStdoutParse with
      | .error _ => []
      | .ok _ =>
        match env.catchPkgJson with
        | .error _ => []
        | .ok pd => extractFromManifest projectRelativePath pd

/-- NpmExtractor.extractDependencies (npmExtractor.js lines 27-202):
the try block with its catch handler. -/
def extractDependencies (env : NpmEnv) (projectRelativePath : String) :
    Except NpmErr (List Dep) :=
  match npmMain env projectRelativePath with
  | .ok ds => .ok ds
  | .error e => .ok (npmCatch env projectRelativePath e)

end NpmExtractor

namespace GradleExtractor

/-- Length of the leading whitespace run (the JS backslash-s class). -/
def wsRun (cs : List Char) : Nat :=
  (cs.takeWhile (fun c => c.isWhitespace)).length

/-- One alternative of the version-cleanup regex: whitespace, an open paren,
any non-paren characters, a close paren, whitespace.  Returns the remainder
after the matched span, or none when the alternative does not match here
(in particular when no close paren follows). -/
def tryParenAlt (cs : List Char) : Option (List Char) :=
  match cs.drop (wsRun cs) with
  | c :: rest =>
    if c = '(' then
      let inner := rest.takeWhile (fun d => !(d = ')'))
      match rest.drop inner.length with
      | d :: rest2 => if d = ')' then some (rest2.drop (wsRun rest2)) else none
      | [] => none
    else none
  | [] => none

/-- The other alternative: whitespace, a star, whitespace. -/
def tryStarAlt (cs : List Char) : Option (List Char) :=
  match cs.drop (wsRun cs) with
  | c :: rest =>
    if c = '*' then some (rest.drop (wsRun rest)) else none
  | [] => none

/-- Global replace of both alternatives by the empty string, scanning left
to right and trying the paren alternative first at each position, exactly as
the JS alternation does.  Every successful alternative consumes at least one
character, so fuel equal to the input length never runs out. -/
def cleanupRun : Nat → List Char → List Char
  | 0, _ => []
  | _ + 1, [] => []
  | fuel + 1, c :: rest =>
    match tryParenAlt (c :: rest) with
    | some rem => cleanupRun fuel rem
    | none =>
      match tryStarAlt (c :: rest) with
      | some rem => cleanupRun fuel rem
      | none => c :: cleanupRun fuel rest

/-- The version cleanup of _parseGradleDependenciesOutput: strip
parenthesized annotations and conflict stars, then trim. -/
def cleanupVersion (s : String) : String :=
  ⟨trimChars (cleanupRun s.data.length s.data)⟩

/-- Length of the leading run of branch characters (plus or backslash). -/
def branchRun (cs : List Char) : Nat :=
  (cs.takeWhile (fun c => c = '+' || c = '\\')).length

/-- Match the tree marker at this exact position: at least one branch
character followed by "--- ", returning the remainder.  The branch-character
class does not contain a dash, so the greedy run never needs to give
characters back. -/
def matchMarkerAt (cs : List Char) : Option (List Char) :=
  let r := branchRun cs
  if r = 0 then none
  else if ("--- ".data).isPrefixOf (cs.drop r) then some (cs.drop (r + 4))
  else none

/-- Leftmost tree-marker occurrence in a line. -/
def findMarker : List Char → Option (List Char)
  | [] => none
  | c :: rest =>
    match matchMarkerAt (c :: rest) with
    | some rem => some rem
    | none => findMarker rest

/-- All ways to split around a colon with a nonempty prefix, preferring the
rightmost colon first: the preference order of the greedy groups of
"(.+):(.+):(.+)$" applied to a line. -/
def splitsDesc (cs : List Char) : List (List Char × List Char) :=
  (((List.range cs.length).filter
      (fun i => cs.get? i = some ':')).reverse).filterMap
    (fun i => if i = 0 then none else some (cs.take i, cs.drop (i + 1)))

/-- The tail "(.+):(.+):(.+)$" of the dependency-line regex, with greedy
backtracking: widest first group whose remainder still splits into a second
group and a nonempty third group running to the end of the line. -/
def matchTreeTail (cs : List Char) : Option (String × String × String) :=
  (splitsDesc cs).findSome? fun s1 =>
    (splitsDesc s1.2).findSome? fun s2 =>
      if s2.2.isEmpty then none
      else some (⟨s1.1⟩, ⟨s2.1⟩, ⟨s2.2⟩)

/-- Match one trimmed line against the dependency-line regex of
_parseGradleDependenciesOutput and build the pushed object: group, name,
cleaned version; no configuration property is ever set. -/
def parseLine (line : List Char) : Option (String × String × String) :=
  match findMarker (trimChars line) with
  | none => none
  | some rem =>
    match matchTreeTail rem with
    | none => none
    | some (g1, g2, g3) => some (g1, g2, cleanupVersion g3)

/-- The object pushed for a matched dependency line.  The parser never sets
a configuration property, so the field is always none. -/
structure GDep where
  group : String
  name : String
  version : String
  configuration : Option String
deriving DecidableEq

/-- GradleExtractor._parseGradleDependenciesOutput (identical in all three
variants): split on newlines, trim each line, collect the regex matches. -/
def parseGradleDependenciesOutput (output : String) : List GDep :=
  (splitOnChar '\n' output.data).filterMap
    (fun line =>
      match parseLine line with
      | some (g, n, v) => some ⟨g, n, v, none⟩
      | none => none)

/-- The apostrophe and double-quote characters of the build-file regex
character class. -/
def isQuote (c : Char) : Bool :=
  c = Char.ofNat 39 || c = Char.ofNat 34

/-- The configuration keywords of the build-file regex, in alternation
order. -/
def gradleConfigKeywords : List String :=
  ["implementation", "api", "compile", "testImplementation", "testCompile"]

/-- First alternation keyword that matches at this position, with the
remainder after it. -/
def keywordAt (cs : List Char) : Option (String × List Char) :=
  gradleConfigKeywords.findSome? fun k =>
    if k.data.isPrefixOf cs then some (k, cs.drop k.data.length) else none

/-- Whitespace-plus followed by an opening quote: the greedy whitespace run
must be immediately followed by a quote (giving whitespace back would leave
a whitespace character where the quote is required). -/
def afterWsQuote (cs : List Char) : Option (List Char) :=
  let w := wsRun cs
  if w = 0 then none
  else
    match cs.drop w with
    | c :: rest => if isQuote c then some rest else none
    | [] => none

/-- All ways to split off a nonempty dot-matchable prefix (no newline),
shortest first: the preference order of a lazy group. -/
def lazySplits : List Char → List (List Char × List Char)
  | [] => []
  | c :: rest =>
    if c = '\n' then []
    else ([c], rest) :: (lazySplits rest).map (fun pr => (c :: pr.1, pr.2))

/-- The quoted body "(.+?):(.+?):(.+?)" up to a closing quote, with lazy
backtracking: each group grows only when every continuation of the shorter
candidate has failed.  Returns the three groups and the remainder after the
closing quote. -/
def matchQuoted (cs : List Char) :
    Option (String × String × String × List Char) :=
  (lazySplits cs).findSome? fun s1 =>
    match s1.2 with
    | c1 :: r1 =>
      if c1 = ':' then
        (lazySplits r1).findSome? fun s2 =>
          match s2.2 with
          | c2 :: r2 =>
            if c2 = ':' then
              (lazySplits r2).findSome? fun s3 =>
                match s3.2 with
                | q :: r3 =>
                  if isQuote q then some (⟨s1.1⟩, ⟨s2.1⟩, ⟨s3.1⟩, r3)
                  else none
                | [] => none
            else none
          | [] => none
      else none
    | [] => none

/-- The object pushed for one build-file declaration: name is group colon
artifact, version the third group, depType the matched keyword (the "type"
property in the source). -/
structure GFileDep where
  name : String
  version : String
  depType : String
deriving DecidableEq

/-- The whole build-file declaration regex at one position: keyword,
whitespace, quote, the three lazy groups, closing quote. -/
def matchDeclAt (cs : List Char) : Option (GFileDep × List Char) :=
  match keywordAt cs with
  | none => none
  | some (k, r0) =>
    match afterWsQuote r0 with
    | none => none
    | some r1 =>
      match matchQuoted r1 with
      | some (g2, g3, g4, rem) => some (⟨g2 ++ ":" ++ g3, g4, k⟩, rem)
      | none => none

/-- The global exec loop of _parseGradleFile: find the leftmost match at or
after the current position, record it, continue from its end.  Every match
consumes at least one character, so fuel equal to the input length never
runs out. -/
def parseGradleFileRun : Nat → List Char → List GFileDep
  | 0, _ => []
  | _ + 1, [] => []
  | fuel + 1, c :: rest =>
    match matchDeclAt (c :: rest) with
    | some (dep, rem) => dep :: parseGradleFileRun fuel rem
    | none => parseGradleFileRun fuel rest

/-- GradleExtractor._parseGradleFile (identical in all three variants):
scan the raw build file for configuration-keyword declarations. -/
def parseGradleFile (content : String) : List GFileDep :=
  parseGradleFileRun content.data.length content.data

/-- Resolution of the build file name (all variants): build.gradle when it
exists, else build.gradle.kts when it exists, else none (empty result). -/
def gradleBuildFile (buildGradleExists buildGradleKtsExists : Bool) :
    Option String :=
  if buildGradleExists then some "build.gradle"
  else if buildGradleKtsExists then some "build.gradle.kts"
  else none

end GradleExtractor

namespace GradleExtractorExec

open GradleExtractor

/-- Environment of the promisified-exec Gradle variant (the first class of
src/unnamed/part_002): the outcome of the gradle dependencies command and of
the readFile performed in its catch block. -/
structure ExecEnv where
  buildGradleExists : Bool
  buildGradleKtsExists : Bool
  depsCmd : JsTry String
  buildFileRead : JsTry String

/-- GradleExtractor.extractDependencies of src/unnamed/part_002 lines
29-108: require a build file; on command success parse its stdout (isDev
from a configuration property the parser never sets); on command failure
fall back to the regex scan of the raw build file (test keywords map to
isDev true); a failing fallback read leaves the list empty. -/
def extractDependencies (env : ExecEnv) (projectRelativePath : String) :
    JsTry (List Dep) :=
  match gradleBuildFile env.buildGradleExists env.buildGradleKtsExists with
  | none => .ok []
  | some gradleFile =>
    let p := joinTwo (dirname projectRelativePath) gradleFile
    match env.depsCmd with
    | .ok stdout =>
      .ok ((parseGradleDependenciesOutput stdout).map fun d =>
        ⟨"GRADLE", p, d.group ++ ":" ++ d.name, jsOrStr d.version "unknown",
         d.configuration == some "testCompileClasspath"
           || d.configuration == some "testImplementation"⟩)
    | .error _ =>
      match env.buildFileRead with
      | .ok content =>
        .ok ((parseGradleFile content).map fun d =>
          ⟨"GRADLE", p, d.name, jsOrStr d.version "unknown",
           d.depType == "testImplementation" || d.depType == "testCompile"⟩)
      | .error _ => .ok []

end GradleExtractorExec

namespace GradleExtractorExeca

open GradleExtractor

/-- Environment of the execa Gradle variant (the second class of
src/unnamed/part_001): the build (install) command whose outcome is only
logged, and the dependencies command with its optional stdout and exit
code. -/
structure ExecaEnv where
  buildGradleExists : Bool
  buildGradleKtsExists : Bool
  buildCmd : JsTry Unit
  depsCmd : JsTry (Option String × Nat)

/-- GradleExtractor.extractDependencies of src/unnamed/part_001 lines
159-243: require a build file; run gradle build best-effort; on any
dependencies-command failure or nonzero exit the captured stdout is reset to
the empty string (no fallback to the raw build file); parse and push with
every field null-guarded. -/
def extractDependencies (env : ExecaEnv) (projectRelativePath : String) :
    JsTry (List Dep) :=
  match gradleBuildFile env.buildGradleExists env.buildGradleKtsExists with
  | none => .ok []
  | some gradleFile =>
    let stdout : String :=
      match env.depsCmd with
      | .ok (so, exitCode) =>
        if exitCode ≠ 0 then ""
        else match so with
             | some s => s
             | none => ""
      | .error _ => ""
    let p := joinTwo (dirname projectRelativePath) gradleFile
    .ok ((parseGradleDependenciesOutput stdout).map fun d =>
      ⟨"GRADLE", p,
       jsOrStr d.group "unknown" ++ ":" ++ jsOrStr d.name "unknown",
       jsOrStr d.version "unknown",
       d.configuration.isSome
         && (d.configuration == some "testCompileClasspath"
             || d.configuration == some "testImplementation")⟩)

end GradleExtractorExeca

namespace ComposerExtractor

/-- One package object of composer show or composer.lock output. -/
structure PkgNV where
  name : String
  version : Option String
deriving DecidableEq

/-- Parsed composer show output: the installed array when present and an
array (a present non-array value behaves like an absent one: nothing is
pushed and control falls through). -/
structure ShowData where
  installed : Option (List PkgNV)
deriving DecidableEq

/-- Parsed composer.lock: the packages array when present and an array. -/
structure ComposerLock where
  packages : Option (List PkgNV)
deriving DecidableEq

/-- Parsed composer.json: the require and require-dev maps. -/
structure ComposerJson where
  require : Option (List (String × String))
  requireDev : Option (List (String × String))
deriving DecidableEq

/-- Result object of a completed execa invocation of composer show. -/
structure ShowOut where
  stdout : String
  exitCode : Nat
deriving DecidableEq

/-- Environment of the execa Composer variant (the first ComposerExtractor
of src/unnamed/part_002): every fallible operation with its outcome.
installCmd is the composer install step whose outcome is only logged;
showParse, lockJson and manifestJson are JSON.parse outcomes (lockJson and
manifestJson combined with their readFile). -/
structure ComposerEnv where
  projectPathHasVendor : Bool
  composerJsonExists : Bool
  installCmd : JsTry Unit
  showCmd : JsTry ShowOut
  showParse : JsTry ShowData
  composerLockExists : Bool
  lockJson : JsTry ComposerLock
  manifestJson : JsTry ComposerJson

/-- The manifest fallback of ComposerExtractor (src/unnamed/part_002 lines
281-311): require entries except the php platform pseudo-dependency with
isDev false, then every require-dev entry with isDev true, versions
verbatim. -/
def composerManifestDeps (projectPathForCsv : String) (cj : ComposerJson) :
    List Dep :=
  (match cj.require with
   | some m =>
     (m.filter (fun nv => !(nv.1 == "php"))).map
       (fun nv => ⟨"COMPOSER", projectPathForCsv, nv.1, nv.2, false⟩)
   | none => [])
  ++ (match cj.requireDev with
      | some m =>
        m.map (fun nv => ⟨"COMPOSER", projectPathForCsv, nv.1, nv.2, true⟩)
      | none => [])

/-- Dependencies built from a list of package objects (composer show or
composer.lock, src/unnamed/part_002 lines 237-245 and 263-271): always
isDev false, version || "unknown". -/
def composerPkgDeps (projectPathForCsv : String) (pkgs : List PkgNV) :
    List Dep :=
  pkgs.map (fun pk =>
    ⟨"COMPOSER", projectPathForCsv, pk.name, jsOr pk.version "unknown", false⟩)

/-- ComposerExtractor.extractDependencies (src/unnamed/part_002 lines
183-321): vendor directories are skipped with an empty tagged result; the
install step result is ignored; composer show success with an installed
array returns immediately; otherwise a nonempty composer.lock packages list
returns; otherwise the composer.json maps are appended to whatever (empty)
list accumulated; every error path still resolves with a list. -/
def extractDependencies (env : ComposerEnv) (projectRelativePath : String) :
    JsTry (List Dep) :=
  if env.projectPathHasVendor then .ok []
  else if env.composerJsonExists = false then .ok []
  else
    let p := joinTwo (dirname projectRelativePath) "composer.json"
    let showDeps : Option (List Dep) :=
      match env.showCmd with
      | .error _ => none
      | .ok out =>
        if out.exitCode ≠ 0 then none
        else
          match env.showParse with
          | .error _ => none
          | .ok sd =>
            match sd.installed with
            | some pkgs => some (composerPkgDeps p pkgs)
            | none => none
    match showDeps with
    | some ds => .ok ds
    | none =>
      let lockList : List Dep :=
        if env.composerLockExists then
          match env.lockJson with
          | .ok ld =>
            match ld.packages with
            | some pkgs => composerPkgDeps p pkgs
            | none => []
          | .error _ => []
        else []
      if lockList.length > 0 then .ok lockList
      else
        match env.manifestJson with
        | .ok cj => .ok (lockList ++ composerManifestDeps p cj)
        | .error _ => .ok lockList

end ComposerExtractor

namespace MavenExtractor

/-- One dependency element of a POM: groupId, artifactId, version, scope
(the latter two may be absent). -/
structure MvnDep where
  groupId : String
  artifactId : String
  version : Option String
  scope : Option String
deriving DecidableEq

/-- The value of project.dependencies.dependency as produced by
fast-xml-parser: a single element for one child, an array for several. -/
inductive XmlDeps where
  | one (d : MvnDep)
  | many (ds : List MvnDep)
deriving DecidableEq

/-- The project element of a parsed POM; dependencies is none when either
the dependencies block or its dependency child is absent (the JS guard
checks both before iterating). -/
structure PomProject where
  dependencies : Option XmlDeps
deriving DecidableEq

/-- A parsed POM document. -/
structure PomData where
  project : Option PomProject
deriving DecidableEq

/-- The Array.isArray normalization (mavenExtractor.js lines 97-99 and
132-134): a single dependency child becomes a one-element list. -/
def normalizeDependencyList : XmlDeps → List MvnDep
  | .one d => [d]
  | .many ds => ds

/-- The record pushed for one dependency element (mavenExtractor.js lines
102-108): name groupId colon artifactId, version || "unknown", isDev
exactly when scope is the string test. -/
def mavenDepOf (projectPathForCsv : String) (d : MvnDep) : Dep :=
  ⟨"MAVEN", projectPathForCsv, d.groupId ++ ":" ++ d.artifactId,
   jsOr d.version "unknown", d.scope == some "test"⟩

/-- Extraction of all dependency records from one parsed POM (used for both
the effective POM and the raw pom.xml fallback). -/
def extractPomDeps (projectPathForCsv : String) (pd : PomData) : List Dep :=
  match pd.project with
  | some proj =>
    match proj.dependencies with
    | some deps => (normalizeDependencyList deps).map (mavenDepOf projectPathForCsv)
    | none => []
  | none => []

/-- Environment of MavenExtractor.extractDependencies
(src/src/extractors/mavenExtractor.js): pomJson is readFile of pom.xml plus
xmlParser.parse; mvnCmd the spawn of mvn help:effective-pom (ok on exit 0);
effectiveWritten whether that invocation left effective-pom.xml on disk;
effJson readFile of effective-pom.xml plus parse; unlinkOk whether
unlinkSync succeeds when invoked. -/
structure MavenEnv where
  pomJson : JsTry PomData
  mvnCmd : JsTry Unit
  effectiveWritten : Bool
  effJson : JsTry PomData
  unlinkOk : Bool

/-- Observable outcome of one Maven extraction: the resolved list, whether
unlinkSync was invoked, and whether an effective-pom.xml written by the mvn
invocation is still on disk afterwards. -/
structure MavenRun where
  result : JsTry (List Dep)
  unlinkInvoked : Bool
  effectivePomRemains : Bool
deriving DecidableEq

/-- MavenExtractor.extractDependencies (mavenExtractor.js lines 36-158):
an unreadable or unparsable pom.xml returns [] before mvn is invoked; a
successful mvn run followed by a successful effective-POM read and parse
takes the success path, which is the only path reaching the unlinkSync at
line 113; any mvn, read or parse failure lands in the execError catch,
which extracts from the raw pom.xml and performs no cleanup. -/
def extractDependencies (env : MavenEnv) (projectRelativePath : String) :
    MavenRun :=
  let p := joinTwo (dirname projectRelativePath) "pom.xml"
  match env.pomJson with
  | .error _ => ⟨.ok [], false, false⟩
  | .ok pomData =>
    match env.mvnCmd with
    | .ok _ =>
      match env.effJson with
      | .ok effData =>
        ⟨.ok (extractPomDeps p effData), true,
         env.effectiveWritten && !env.unlinkOk⟩
      | .error _ =>
        ⟨.ok (extractPomDeps p pomData), false, env.effectiveWritten⟩
    | .error _ =>
      ⟨.ok (extractPomDeps p pomData), false, env.effectiveWritten⟩

end MavenExtractor

/-- A distinguished timeout failure versus any failure of the wrapped
extraction itself. -/
inductive TimeoutErr where
  | timeout
  | other
deriving DecidableEq

/-- The asynchronous behavior of one extractDependencies call as seen by a
timeout wrapper: the tick at which its promise settles and how. -/
structure AsyncExtract where
  duration : Nat
  outcome : JsTry (List Dep)

/-- What a timeout-wrapped call observably does: when it settles, with what,
and whether a kill signal was sent to the tracked subprocess. -/
structure TimeoutRun where
  settleTime : Nat
  result : Except TimeoutErr (List Dep)
  killInvoked : Bool
deriving DecidableEq

/-- Lift the inner outcome into the wrapped result type. -/
def liftOutcome : JsTry (List Dep) → Except TimeoutErr (List Dep)
  | .ok ds => .ok ds
  | .error _ => .error .other

/-- NpmExtractor.extractDependenciesWithTimeout (npmExtractor.js lines
211-216): a bare Promise.race of the extraction against a rejecting timer.
No process reference is tracked and nothing is ever killed; when the timer
fires first the wrapper rejects with the distinguished timeout error while
the npm subprocess keeps running.  A tie is resolved for the extraction, the
first promise of the race array. -/
def npmExtractDependenciesWithTimeout (e : AsyncExtract) (timeoutMs : Nat) :
    TimeoutRun :=
  if timeoutMs < e.duration then ⟨timeoutMs, .error .timeout, false⟩
  else ⟨e.duration, liftOutcome e.outcome, false⟩

/-- GradleExtractor.extractDependenciesWithTimeout (the second class of
src/src/detectors/projectDetector.js, lines 247-273; MavenExtractor has the
identical shape): a setTimeout that, on firing, SIGKILLs the subprocess
recorded in procRef (when one was spawned) and rejects with the
distinguished timeout error; an extraction settling first clears the
timer. -/
def gradleExtractDependenciesWithTimeout (e : AsyncExtract) (timeoutMs : Nat)
    (procRegistered : Bool) : TimeoutRun :=
  if timeoutMs < e.duration then ⟨timeoutMs, .error .timeout, procRegistered⟩
  else ⟨e.duration, liftOutcome e.outcome, false⟩

/-- The apostrophe character, used by Gradle build-file fixtures. -/
def singleQuote : String := ⟨[Char.ofNat 39]⟩

/-- The build-file content of the specification scenario: a file containing
the declaration testImplementation (quote) junit:junit:4.13.2 (quote). -/
def junitBuildFileContent : String :=
  "testImplementation " ++ singleQuote ++ "junit:junit:4.13.2" ++ singleQuote

/-!
Theorems.  Each claim of the specification is settled below; shared
auxiliary lemmas come first.
-/

/-- After fs.stat resolves, the returned Stats never report a symbolic link:
stat follows links and describes the target.  This is why the skip branch at
dirWalker.js line 66 is unreachable. -/
theorem statFollow_isSymbolicLink_false (n : DirWalker.FsNode)
    (st : DirWalker.Stats) (h : DirWalker.statFollow n = some st) :
    st.isSymbolicLink = false := by
  induction n using DirWalker.statFollow.induct <;>
    simp_all [DirWalker.statFollow] <;> exact h ▸ rfl

/-- C1: for every environment (that is, every combination of command, read
and parse outcomes below the fatal tier), the NPM, Gradle (execa variant),
Composer and Maven extractDependencies all resolve with a list and never
reject; with no package.json present the NPM extractor resolves with the
empty list. -/
theorem c1_extractors_never_throw (ne : NpmExtractor.NpmEnv)
    (ge : GradleExtractorExeca.ExecaEnv) (ce : ComposerExtractor.ComposerEnv)
    (me : MavenExtractor.MavenEnv) (rel : String) :
    (∃ ds, NpmExtractor.extractDependencies ne rel = .ok ds) ∧
    (∃ ds, GradleExtractorExeca.extractDependencies ge rel = .ok ds) ∧
    (∃ ds, ComposerExtractor.extractDependencies ce rel = .ok ds) ∧
    (∃ ds, (MavenExtractor.extractDependencies me rel).result = .ok ds) ∧
    (ne.packageJsonExists = false →
      NpmExtractor.extractDependencies ne rel = .ok []) := by
  refine ⟨?_, ?_, ?_, ?_, ?_⟩
  · cases h : NpmExtractor.npmMain ne rel with
    | ok ds =>
      exact ⟨ds, by simp [NpmExtractor.extractDependencies, h]⟩
    | error e =>
      exact ⟨NpmExtractor.npmCatch ne rel e,
             by simp [NpmExtractor.extractDependencies, h]⟩
  · unfold GradleExtractorExeca.extractDependencies
    dsimp only
    repeat' split
    all_goals exact ⟨_, rfl⟩
  · unfold ComposerExtractor.extractDependencies
    dsimp only
    repeat' split
    all_goals exact ⟨_, rfl⟩
  · unfold MavenExtractor.extractDependencies
    dsimp only
    repeat' split
    all_goals exact ⟨_, rfl⟩
  · intro h
    simp [NpmExtractor.extractDependencies, NpmExtractor.npmMain, h]

/-- C1 witness: a concrete environment with no package.json resolves with
the empty list, and a concrete Gradle environment resolves with a list. -/
theorem c1_witness :
    NpmExtractor.extractDependencies
      ⟨false, false, none, .error (), .error (), .error (), .error ()⟩
      "app/package.json" = .ok [] :=
  (c1_extractors_never_throw
      ⟨false, false, none, .error (), .error (), .error (), .error ()⟩
      ⟨false, false, .error (), .error ()⟩
      ⟨false, false, .error (), .error (), .error (), false, .error (), .error ()⟩
      ⟨.error (), .error (), false, .error (), false⟩
      "app/package.json").2.2.2.2 rfl

/-- C2 counterexample: the claim fails on Composer.  With composer show
failing and a composer.lock that exists and is well-formed (it parses, with
an empty packages array), extract does invoke the manifest fallback and
returns the declared range from composer.json instead of the (empty)
lockfile data. -/
theorem c2_composer_empty_lock_counterexample :
    ComposerExtractor.extractDependencies
      ⟨false, true, .ok (), .error (), .error (), true,
       .ok ⟨some []⟩, .ok ⟨some [("guzzlehttp/guzzle", "^7.0")], none⟩⟩
      "app/composer.json"
      = .ok [⟨"COMPOSER", "app/composer.json", "guzzlehttp/guzzle", "^7.0",
              false⟩] := by
  decide

/-- C2 (amended): when the resolver step yields no result and the lockfile
parses, the lockfile data is used and the manifest is never consulted,
provided the lock-derived list is nonempty for Composer (NPM stops at any
parsable package-lock.json, even one yielding zero dependencies).  The
conclusion depends only on the lockfile data, for every manifest content. -/
theorem c2_lockfile_precedence (ne : NpmExtractor.NpmEnv)
    (ce : ComposerExtractor.ComposerEnv) (relN relC : String)
    (ld : NpmExtractor.LockData) (cl : ComposerExtractor.ComposerLock)
    (pkgs : List ComposerExtractor.PkgNV)
    (hn0 : ne.packageJsonExists = true) (hn1 : ne.npmLs = none)
    (hn2 : ∃ pd, ne.pkgJson = .ok pd) (hn3 : ne.lockFileExists = true)
    (hn4 : ne.lockJson = .ok ld)
    (hc0 : ce.projectPathHasVendor = false)
    (hc1 : ce.composerJsonExists = true) (hc2 : ce.showCmd = .error ())
    (hc3 : ce.composerLockExists = true) (hc4 : ce.lockJson = .ok cl)
    (hc5 : cl.packages = some pkgs) (hc6 : pkgs ≠ []) :
    NpmExtractor.extractDependencies ne relN
      = .ok (NpmExtractor.lockDeps relN ld) ∧
    ComposerExtractor.extractDependencies ce relC
      = .ok (ComposerExtractor.composerPkgDeps
               (joinTwo (dirname relC) "composer.json") pkgs) := by
  obtain ⟨pd, hpd⟩ := hn2
  constructor
  · simp [NpmExtractor.extractDependencies, NpmExtractor.npmMain,
          hn0, hn1, hpd, hn3, hn4]
  · have hlen : 0 < (ComposerExtractor.composerPkgDeps
        (joinTwo (dirname relC) "composer.json") pkgs).length := by
      simpa [ComposerExtractor.composerPkgDeps] using
        List.length_pos.mpr hc6
    simp [ComposerExtractor.extractDependencies, hc0, hc1, hc2, hc3,
          hc4, hc5, hlen]

/-- C2 witness: a concrete NPM project with a parsable v3 lockfile and a
concrete Composer project with a parsable nonempty composer.lock both
return the lock-derived dependencies. -/
theorem c2_witness :
    NpmExtractor.extractDependencies
      ⟨true, true, none, .ok ⟨none, none⟩,
       .ok ⟨none, some [("node_modules/lodash", ⟨some "4.17.21", false⟩)]⟩,
       .ok (), .error ()⟩
      "app/package.json"
      = .ok (NpmExtractor.lockDeps "app/package.json"
              ⟨none, some [("node_modules/lodash", ⟨some "4.17.21", false⟩)]⟩) ∧
    ComposerExtractor.extractDependencies
      ⟨false, true, .ok (), .error (), .error (), true,
       .ok ⟨some [⟨"guzzlehttp/guzzle", some "7.5.0"⟩]⟩,
       .ok ⟨some [("guzzlehttp/guzzle", "^7.0")], none⟩⟩
      "app/composer.json"
      = .ok (ComposerExtractor.composerPkgDeps
              (joinTwo (dirname "app/composer.json") "composer.json")
              [⟨"guzzlehttp/guzzle", some "7.5.0"⟩]) :=
  c2_lockfile_precedence
    ⟨true, true, none, .ok ⟨none, none⟩,
     .ok ⟨none, some [("node_modules/lodash", ⟨some "4.17.21", false⟩)]⟩,
     .ok (), .error ()⟩
    ⟨false, true, .ok (), .error (), .error (), true,
     .ok ⟨some [⟨"guzzlehttp/guzzle", some "7.5.0"⟩]⟩,
     .ok ⟨some [("guzzlehttp/guzzle", "^7.0")], none⟩⟩
    "app/package.json" "app/composer.json"
    ⟨none, some [("node_modules/lodash", ⟨some "4.17.21", false⟩)]⟩
    ⟨some [⟨"guzzlehttp/guzzle", some "7.5.0"⟩]⟩
    [⟨"guzzlehttp/guzzle", some "7.5.0"⟩]
    rfl rfl ⟨_, rfl⟩ rfl rfl rfl rfl rfl rfl rfl rfl (by decide)

/-- C3: the walker does not in fact skip symbolic links.  fs.stat follows
links, so in a directory holding a regular file, a symlink to a file and a
symlink to a directory, the walk reports the link to the file through the
file callback and counts it, and traverses the link to the directory; the
claim expects a count of 1 with only real.txt reported and no link
traversed.  (The unit test of the walker asserts the skip, but only because
it stubs fs.stat with an isSymbolicLink result that the real fs.stat never
produces.) -/
theorem c3_symlink_walked_not_skipped :
    DirWalker.walk
      (.dir (.cons "real.txt" .file
        (.cons "link.txt" (.symlink .file)
          (.cons "sub" (.symlink (.dir (.cons "inner.txt" .file .nil)))
            .nil))))
      = ⟨3, ["real.txt", "link.txt", "sub/inner.txt"], 0⟩ := by
  decide

/-- C4 counterexample: the NPM timeout wrapper is a bare Promise.race; at a
concrete environment where the extraction outlives the timeout, it settles
with the distinguished timeout error but without any kill of the
subprocess, contradicting the claim that the timed-out subprocess is
forcibly terminated on every invocation. -/
theorem c4_npm_race_never_kills :
    npmExtractDependenciesWithTimeout ⟨100, .ok []⟩ 50
      = ⟨50, .error .timeout, false⟩ := by
  decide

/-- C4 (amended): whenever the configured timeout elapses before the
extraction settles, each timeout-wrapped variant settles exactly at the
timeout (never hangs) with the distinguished timeout error; the Gradle and
Maven wrappers kill the subprocess recorded in procRef, while the NPM
wrapper performs no kill at all. -/
theorem c4_timeout_behavior (e : AsyncExtract) (t : Nat)
    (procRegistered : Bool) (h : t < e.duration) :
    npmExtractDependenciesWithTimeout e t = ⟨t, .error .timeout, false⟩ ∧
    gradleExtractDependenciesWithTimeout e t procRegistered
      = ⟨t, .error .timeout, procRegistered⟩ ∧
    (npmExtractDependenciesWithTimeout e t).settleTime ≤ t ∧
    (gradleExtractDependenciesWithTimeout e t procRegistered).settleTime
      ≤ t := by
  refine ⟨?_, ?_, ?_, ?_⟩ <;>
    simp [npmExtractDependenciesWithTimeout,
          gradleExtractDependenciesWithTimeout, h]

/-- C4 witness: at a 60-tick budget against a 120-tick extraction, both
wrappers settle at 60 with the timeout error; the Gradle wrapper kills the
registered subprocess, the NPM wrapper kills nothing. -/
theorem c4_witness :
    npmExtractDependenciesWithTimeout ⟨120, .ok []⟩ 60
      = ⟨60, .error .timeout, false⟩ ∧
    gradleExtractDependenciesWithTimeout ⟨120, .ok []⟩ 60 true
      = ⟨60, .error .timeout, true⟩ :=
  ⟨(c4_timeout_behavior ⟨120, .ok []⟩ 60 true (by decide)).1,
   (c4_timeout_behavior ⟨120, .ok []⟩ 60 true (by decide)).2.1⟩

/-- C5: when the Gradle dependency-listing command fails, the exec variant
falls back to the regex scan of the raw build file; in particular the
specification scenario file containing the single declaration
testImplementation junit:junit:4.13.2 yields exactly one Dependency with
isDev true and version 4.13.2. -/
theorem c5_gradle_file_fallback (env : GradleExtractorExec.ExecEnv)
    (rel content : String)
    (h1 : env.buildGradleExists = true) (h2 : env.depsCmd = .error ())
    (h3 : env.buildFileRead = .ok content) :
    GradleExtractorExec.extractDependencies env rel
      = .ok ((GradleExtractor.parseGradleFile content).map fun d =>
          ⟨"GRADLE", joinTwo (dirname rel) "build.gradle", d.name,
           jsOrStr d.version "unknown",
           d.depType == "testImplementation" || d.depType == "testCompile"⟩) ∧
    (content = junitBuildFileContent →
      GradleExtractorExec.extractDependencies env rel
        = .ok [⟨"GRADLE", joinTwo (dirname rel) "build.gradle",
               "junit:junit", "4.13.2", true⟩]) := by
  have hfile : GradleExtractor.gradleBuildFile env.buildGradleExists
      env.buildGradleKtsExists = some "build.gradle" := by
    simp [GradleExtractor.gradleBuildFile, h1]
  have hmain : GradleExtractorExec.extractDependencies env rel
      = .ok ((GradleExtractor.parseGradleFile content).map fun d =>
          ⟨"GRADLE", joinTwo (dirname rel) "build.gradle", d.name,
           jsOrStr d.version "unknown",
           d.depType == "testImplementation" || d.depType == "testCompile"⟩) := by
    simp [GradleExtractorExec.extractDependencies, hfile, h2, h3]
  refine ⟨hmain, ?_⟩
  intro hc
  subst hc
  rw [hmain]
  have hparse : GradleExtractor.parseGradleFile junitBuildFileContent
      = [⟨"junit:junit", "4.13.2", "testImplementation"⟩] := by decide
  rw [hparse]
  simp [jsOrStr]

/-- C5 witness: the concrete scenario environment yields exactly the junit
test dependency. -/
theorem c5_witness :
    GradleExtractorExec.extractDependencies
      ⟨true, false, .error (), .ok junitBuildFileContent⟩ "app/build.gradle"
      = .ok [⟨"GRADLE", "app/build.gradle", "junit:junit", "4.13.2",
             true⟩] :=
  ((c5_gradle_file_fallback
      ⟨true, false, .error (), .ok junitBuildFileContent⟩
      "app/build.gradle" junitBuildFileContent rfl rfl rfl).2 rfl).trans
    (by decide)

/-- C6: in the Composer manifest fallback the php platform
pseudo-dependency is dropped from the require map while every require-dev
entry is recorded with isDev true; the specification scenario manifest with
require php and guzzlehttp/guzzle yields exactly one Dependency. -/
theorem c6_composer_php_excluded (ce : ComposerExtractor.ComposerEnv)
    (rel ppath v : String) (cj : ComposerExtractor.ComposerJson)
    (reqs devs : List (String × String))
    (dv : Option (List (String × String)))
    (h0 : ce.projectPathHasVendor = false)
    (h1 : ce.composerJsonExists = true) (h2 : ce.showCmd = .error ())
    (h3 : ce.composerLockExists = false) (h4 : ce.manifestJson = .ok cj) :
    ComposerExtractor.extractDependencies ce rel
      = .ok (ComposerExtractor.composerManifestDeps
              (joinTwo (dirname rel) "composer.json") cj) ∧
    ComposerExtractor.composerManifestDeps ppath
        ⟨some (("php", v) :: reqs), dv⟩
      = ComposerExtractor.composerManifestDeps ppath ⟨some reqs, dv⟩ ∧
    ComposerExtractor.composerManifestDeps ppath ⟨none, some devs⟩
      = devs.map (fun nv => ⟨"COMPOSER", ppath, nv.1, nv.2, true⟩) ∧
    (cj = ⟨some [("php", "^8.1"), ("guzzlehttp/guzzle", "^7.0")], none⟩ →
      ComposerExtractor.extractDependencies ce rel
        = .ok [⟨"COMPOSER", joinTwo (dirname rel) "composer.json",
               "guzzlehttp/guzzle", "^7.0", false⟩]) := by
  have hmain : ComposerExtractor.extractDependencies ce rel
      = .ok (ComposerExtractor.composerManifestDeps
              (joinTwo (dirname rel) "composer.json") cj) := by
    simp [ComposerExtractor.extractDependencies, h0, h1, h2, h3, h4]
  refine ⟨hmain, ?_, ?_, ?_⟩
  · simp [ComposerExtractor.composerManifestDeps]
  · simp [ComposerExtractor.composerManifestDeps]
  · intro hc
    subst hc
    rw [hmain]
    simp [ComposerExtractor.composerManifestDeps]

/-- C6 witness: the concrete scenario environment yields exactly the guzzle
dependency, with php excluded. -/
theorem c6_witness :
    ComposerExtractor.extractDependencies
      ⟨false, true, .ok (), .error (), .error (), false, .error (),
       .ok ⟨some [("php", "^8.1"), ("guzzlehttp/guzzle", "^7.0")], none⟩⟩
      "app/composer.json"
      = .ok [⟨"COMPOSER", "app/composer.json", "guzzlehttp/guzzle", "^7.0",
             false⟩] :=
  ((c6_composer_php_excluded
      ⟨false, true, .ok (), .error (), .error (), false, .error (),
       .ok ⟨some [("php", "^8.1"), ("guzzlehttp/guzzle", "^7.0")], none⟩⟩
      "app/composer.json" "p" "^8.1"
      ⟨some [("php", "^8.1"), ("guzzlehttp/guzzle", "^7.0")], none⟩
      [] [] none rfl rfl rfl rfl rfl).2.2.2 rfl).trans (by decide)

/-- C7: a POM whose dependencies block holds a single dependency child is
normalized to a one-element list, so exactly one record is produced, and
the scope-to-isDev mapping takes scope test to true and every other scope
to false. -/
theorem c7_maven_single_child_normalized (env : MavenExtractor.MavenEnv)
    (rel ppath g a ver : String) (pd : MavenExtractor.PomData)
    (d : MavenExtractor.MvnDep)
    (h1 : env.pomJson = .ok pd) (h2 : env.mvnCmd = .ok ())
    (h3 : env.effJson = .ok ⟨some ⟨some (.one d)⟩⟩) :
    (MavenExtractor.extractDependencies env rel).result
      = .ok [MavenExtractor.mavenDepOf (joinTwo (dirname rel) "pom.xml") d] ∧
    MavenExtractor.normalizeDependencyList (.one d) = [d] ∧
    (MavenExtractor.mavenDepOf ppath
        ⟨g, a, some ver, some "test"⟩).isDev = true ∧
    (∀ sc, sc ≠ some "test" →
      (MavenExtractor.mavenDepOf ppath ⟨g, a, some ver, sc⟩).isDev
        = false) := by
  refine ⟨?_, rfl, ?_, ?_⟩
  · simp [MavenExtractor.extractDependencies, h1, h2, h3,
          MavenExtractor.extractPomDeps, MavenExtractor.normalizeDependencyList]
  · simp [MavenExtractor.mavenDepOf]
  · intro sc hsc
    simp [MavenExtractor.mavenDepOf, hsc]

/-- C7 witness: a concrete effective POM with one compile-scope dependency
produces exactly its record, with isDev false. -/
theorem c7_witness :
    (MavenExtractor.extractDependencies
      ⟨.ok ⟨none⟩, .ok (), true,
       .ok ⟨some ⟨some (.one ⟨"org.apache.commons", "commons-lang3",
                             some "3.12.0", some "compile"⟩)⟩⟩, true⟩
      "m/pom.xml").result
      = .ok [⟨"MAVEN", "m/pom.xml", "org.apache.commons:commons-lang3",
             "3.12.0", false⟩] :=
  ((c7_maven_single_child_normalized
      ⟨.ok ⟨none⟩, .ok (), true,
       .ok ⟨some ⟨some (.one ⟨"org.apache.commons", "commons-lang3",
                             some "3.12.0", some "compile"⟩)⟩⟩, true⟩
      "m/pom.xml" "p" "g" "a" "v" ⟨none⟩
      ⟨"org.apache.commons", "commons-lang3", some "3.12.0", some "compile"⟩
      rfl rfl rfl).1).trans (by decide)

/-- C8 counterexample: on the fallback path no cleanup happens.  With mvn
exiting nonzero after writing effective-pom.xml, extraction succeeds from
the raw pom.xml, unlinkSync is never invoked and the side-effect file is
left behind in the project directory, contradicting the claim that the file
is always cleaned up on both paths. -/
theorem c8_effective_pom_left_on_fallback :
    MavenExtractor.extractDependencies
      ⟨.ok ⟨some ⟨some (.one ⟨"com.example", "lib", some "1.0.0", none⟩)⟩⟩,
       .error (), true, .error (), true⟩
      "m/pom.xml"
      = ⟨.ok [⟨"MAVEN", "m/pom.xml", "com.example:lib", "1.0.0", false⟩],
         false, true⟩ := by
  decide

/-- C8 (amended): the side-effect file is deleted only on the success path.
When mvn succeeds and the effective POM is read and parsed, unlinkSync is
invoked (and a successful unlink leaves no file behind); when mvn fails,
unlinkSync is never invoked and a file the mvn run wrote stays on disk. -/
theorem c8_cleanup_only_on_success (env : MavenExtractor.MavenEnv)
    (rel : String) (pd ed : MavenExtractor.PomData)
    (h1 : env.pomJson = .ok pd) :
    (env.mvnCmd = .ok () → env.effJson = .ok ed →
      (MavenExtractor.extractDependencies env rel).unlinkInvoked = true ∧
      (env.unlinkOk = true →
        (MavenExtractor.extractDependencies env rel).effectivePomRemains
          = false)) ∧
    (env.mvnCmd = .error () →
      (MavenExtractor.extractDependencies env rel).unlinkInvoked = false ∧
      (MavenExtractor.extractDependencies env rel).effectivePomRemains
        = env.effectiveWritten) := by
  constructor
  · intro hm he
    constructor
    · simp [MavenExtractor.extractDependencies, h1, hm, he]
    · intro hu
      simp [MavenExtractor.extractDependencies, h1, hm, he, hu]
  · intro hm
    constructor <;> simp [MavenExtractor.extractDependencies, h1, hm]

/-- C8 witness: on a concrete success-path environment unlinkSync runs and
the file is gone; the hypotheses of the amended theorem are discharged at
that environment. -/
theorem c8_witness :
    (MavenExtractor.extractDependencies
      ⟨.ok ⟨none⟩, .ok (), true, .ok ⟨none⟩, true⟩
      "m/pom.xml").unlinkInvoked = true ∧
    (MavenExtractor.extractDependencies
      ⟨.ok ⟨none⟩, .ok (), true, .ok ⟨none⟩, true⟩
      "m/pom.xml").effectivePomRemains = false :=
  ⟨((c8_cleanup_only_on_success
      ⟨.ok ⟨none⟩, .ok (), true, .ok ⟨none⟩, true⟩
      "m/pom.xml" ⟨none⟩ ⟨none⟩ rfl).1 rfl rfl).1,
   ((c8_cleanup_only_on_success
      ⟨.ok ⟨none⟩, .ok (), true, .ok ⟨none⟩, true⟩
      "m/pom.xml" ⟨none⟩ ⟨none⟩ rfl).1 rfl rfl).2 rfl⟩

/-- C9 counterexample: a fully populated record with isDev true is written
as a row of only the four string cells; neither a fifth cell nor any
rendering of the boolean appears, and the header row also has four
columns, contradicting the claimed five-field record shape. -/
theorem c9_isdev_never_written :
    CsvHelper.rowOf ⟨some "NPM", some "app/package.json", some "lodash",
                     some "4.17.21", some true⟩
      = ["NPM", "app/package.json", "lodash", "4.17.21"] ∧
    (CsvHelper.rowOf ⟨some "NPM", some "app/package.json", some "lodash",
                      some "4.17.21", some true⟩).length = 4 ∧
    CsvHelper.headers.length = 4 ∧
    ¬ "true" ∈ CsvHelper.rowOf ⟨some "NPM", some "app/package.json",
                  some "lodash", some "4.17.21", some true⟩ := by
  decide

/-- C9 (amended): every record is written as exactly the four string cells
projectType, projectPath, dependencyName, dependencyVersion; any absent
value is written as the empty string, never null; the isDev field of the
record never influences the row; and an initialized sink appends one such
row per record. -/
theorem c9_row_shape (rec : CsvHelper.CsvRecord) (b : Option Bool)
    (deps : List CsvHelper.CsvRecord) :
    (CsvHelper.rowOf rec).length = 4 ∧
    CsvHelper.rowOf ⟨none, none, none, none, b⟩ = ["", "", "", ""] ∧
    CsvHelper.rowOf {rec with isDev := b} = CsvHelper.rowOf rec ∧
    CsvHelper.appendDependenciesToCsv true deps
      = .ok (deps.map CsvHelper.rowOf) := by
  refine ⟨rfl, rfl, rfl, ?_⟩
  simp [CsvHelper.appendDependenciesToCsv]

/-- C10: the sink does not honor the caller-chosen file name.  For the
output path the integration test supplies, the constructor replaces the
basename with dependencies.csv, and finalize returns that replaced path,
not the supplied one. -/
theorem c10_output_basename_replaced :
    CsvHelper.outputPathOf "test/integration/dependencies-test.csv"
      = "test/integration/dependencies.csv" ∧
    CsvHelper.outputPathOf "test/integration/dependencies-test.csv"
      ≠ "test/integration/dependencies-test.csv" ∧
    CsvHelper.finalizeCsv "test/integration/dependencies-test.csv" true
      = .ok "test/integration/dependencies.csv" := by
  decide
